import Mathlib

/-!
# BluBridge HRMS attendance/payroll core — shallow embedding

This file embeds, in Lean 4, the attendance-to-payroll derivation engine of
`backend/server.py`: time parsing, the shift catalog, shift resolution,
the attendance status engine, the check-in / check-out lifecycle, and the
monthly payroll aggregator.  Python machine behaviour is made explicit:
values that may be `None` are `Option`s, operations that can raise an
unhandled `TypeError` (such as ordering a `None` against an `int`) return
`Except PyErr`, and Python floats are modelled as rationals (all quantities
here are minute-grained, so float rounding never flips a comparison or a
two-decimal rounding at the values the program can produce).
-/

set_option maxRecDepth 40000

namespace HRMS

/-- Unhandled Python exceptions that the embedded fragments can raise. -/
inductive PyErr where
  | typeError
deriving DecidableEq, Repr

deriving instance DecidableEq for Except

/-- Computations in the embedded Python fragments: a value or an unhandled
exception. -/
abbrev Py (α : Type) := Except PyErr α

/-- Python truthiness of an optional string (`if s:`): `None` and `""` are
falsy. -/
def pyTruthyS : Option String → Bool
  | none => false
  | some s => s ≠ ""

/-- Python truthiness of an optional boolean (`record.get("is_lop", False)`
may also hold `None`). -/
def pyTruthyB (o : Option Bool) : Bool := o.getD false

/-- A Python number as stored in the shift dictionaries: the catalog holds
`int`s, computed custom totals are `float`s (the distinction matters only
for string formatting). -/
inductive PyNum where
  | int (n : ℤ)
  | float (q : ℚ)
deriving DecidableEq, Repr

/-- Numeric value of a `PyNum` (Python compares ints and floats
numerically). -/
def PyNum.toQ : PyNum → ℚ
  | .int n => (n : ℚ)
  | .float q => q

/-- Embeds `str.split` at a colon on the character list of a string. -/
def splitOnColon : List Char → List (List Char)
  | [] => [[]]
  | c :: rest =>
    let r := splitOnColon rest
    if c = ':' then [] :: r
    else
      match r with
      | h :: t => (c :: h) :: t
      | [] => [[c]]

/-- Whitespace stripping of Python `int(s)`. -/
def pyStrip (l : List Char) : List Char :=
  ((l.dropWhile (·.isWhitespace)).reverse.dropWhile (·.isWhitespace)).reverse

/-- Python `int(s)` on a string: strip surrounding spaces, optional sign,
then decimal digits; `none` models the `ValueError` raised otherwise.
(Numeric-grouping underscores accepted by CPython are not modelled; no
claim depends on them.) -/
def pyIntOfChars (s : List Char) : Option Int :=
  match pyStrip s with
  | [] => none
  | c :: rest =>
    let (neg, digits) :=
      if c = '-' then (true, rest)
      else if c = '+' then (false, rest)
      else (false, c :: rest)
    if digits = [] then none
    else if digits.all (·.isDigit) then
      let n : ℤ := digits.foldl (fun acc d => acc * 10 + ((d.toNat - '0'.toNat : ℕ) : ℤ)) 0
      some (if neg then -n else n)
    else none

/-- Embeds `parse_time_24h_to_minutes`: convert a 24-hour `"HH:MM"` string to
minutes since midnight; `None`/`""` input and any parse failure yield
`None` (the source wraps the body in `try/except`). -/
def parse_time_24h_to_minutes : Option String → Option Int
  | none => none
  | some time_str =>
    if time_str = "" then none
    else
      match splitOnColon time_str.data with
      | [h, m] =>
        match pyIntOfChars h, pyIntOfChars m with
        | some hours, some minutes => some (hours * 60 + minutes)
        | _, _ => none
      | _ => none

/-- The overnight-wraparound duration rule the source inlines at every
duration computation: if `e < s` the span crosses midnight. -/
def durationMinutes (s e : ℤ) : ℤ :=
  if e < s then 24 * 60 - s + e else e - s

/-- One entry of `SHIFT_DEFINITIONS`. -/
structure ShiftDef where
  login_time : Option String
  logout_time : Option String
  total_hours : Option PyNum
  description : String
deriving DecidableEq, Repr

def generalShiftDef : ShiftDef :=
  ⟨some "10:00", some "21:00", some (.int 11), "Standard shift (10:00 AM - 9:00 PM)"⟩

/-- The static `SHIFT_DEFINITIONS` table. -/
def SHIFT_DEFINITIONS : String → Option ShiftDef
  | "General" => some generalShiftDef
  | "Morning" => some ⟨some "06:00", some "14:00", some (.int 8), "Morning shift (6:00 AM - 2:00 PM)"⟩
  | "Evening" => some ⟨some "14:00", some "22:00", some (.int 8), "Evening shift (2:00 PM - 10:00 PM)"⟩
  | "Night" => some ⟨some "22:00", some "06:00", some (.int 8), "Night shift (10:00 PM - 6:00 AM)"⟩
  | "Flexible" => some ⟨none, none, some (.int 8), "Flexible shift (8 hours required, no fixed time)"⟩
  | "Custom" => some ⟨none, none, none, "Custom shift (admin-defined timings)"⟩
  | _ => none

namespace AttendanceStatus

def PRESENT : String := "Present"
def LATE_LOGIN : String := "Late Login"
def EARLY_OUT : String := "Early Out"
def LOSS_OF_PAY : String := "Loss of Pay"
def LEAVE : String := "Leave"
def ABSENT : String := "Absent"
def NOT_LOGGED : String := "Not Logged"
def LOGIN : String := "Login"
def COMPLETED : String := "Completed"

end AttendanceStatus

/-- The employee fields the attendance/payroll core reads.  Fields are
`Option`s because the backing documents may lack them or hold `None`. -/
structure Employee where
  shift_type : Option String
  custom_login_time : Option String
  custom_logout_time : Option String
  monthly_salary : Option ℚ
deriving DecidableEq, Repr

/-- The dictionary returned by `get_shift_timings`. -/
structure ShiftTimings where
  login_time : Option String
  logout_time : Option String
  total_hours : Option PyNum
deriving DecidableEq, Repr

/-- Embeds `get_shift_timings`: resolve the employee's shift configuration.  For a
`Custom` shift with both custom times set, the times are parsed and the
total hours derived with the wraparound rule; if either parse yields
`None`, the source's comparison `logout_mins < login_mins` raises
`TypeError`. -/
def get_shift_timings (employee : Employee) : Py (Option ShiftTimings) :=
  let shift_type := employee.shift_type.getD "General"
  if shift_type = "Custom" then
    let login_time := employee.custom_login_time
    let logout_time := employee.custom_logout_time
    if pyTruthyS login_time && pyTruthyS logout_time then
      match parse_time_24h_to_minutes login_time, parse_time_24h_to_minutes logout_time with
      | some login_mins, some logout_mins =>
        let total_hours : ℚ :=
          if logout_mins < login_mins then ((24 * 60 - login_mins + logout_mins : ℤ) : ℚ) / 60
          else ((logout_mins - login_mins : ℤ) : ℚ) / 60
        .ok (some ⟨login_time, logout_time, some (.float total_hours)⟩)
      | _, _ => .error .typeError
    else .ok none
  else
    let shift_def := (SHIFT_DEFINITIONS shift_type).getD generalShiftDef
    .ok (some ⟨shift_def.login_time, shift_def.logout_time, shift_def.total_hours⟩)

/-- Round-half-to-even to an integer (Python's rounding mode).  At the
minute-grained values this program produces, exact ties never occur, so
this agrees with Python's float-based `round`/formatting. -/
def roundHalfEven (q : ℚ) : ℤ :=
  let f := ⌊q⌋
  let r := q - (f : ℚ)
  if r < 1 / 2 then f
  else if 1 / 2 < r then f + 1
  else if f % 2 = 0 then f else f + 1

/-- Embeds the `round(x, 2)` applied to the source's salary figures. -/
def round2 (q : ℚ) : ℚ := (roundHalfEven (100 * q) : ℚ) / 100

def pad2 (n : ℕ) : String := if n < 10 then "0" ++ toString n else toString n

/-- Embeds the two-decimal `.2f` formatting of the nonnegative hour values
this program produces. -/
def fmt2 (q : ℚ) : String :=
  let c := (roundHalfEven (100 * q)).toNat
  toString (c / 100) ++ "." ++ pad2 (c % 100)

def zeroPad (w : ℕ) (s : String) : String :=
  if s.length < w then String.mk (List.replicate (w - s.length) '0') ++ s else s

def trimZeros (s : String) : String :=
  let t := String.mk (s.toList.reverse.dropWhile (· = '0')).reverse
  if t = "" then "0" else t

/-- Python's rendering of a nonnegative float: exact when the value has a
finite decimal expansion (every value a claim touches does); repeating
expansions are cut at 16 fractional digits. -/
def pyFloatStrNN (q : ℚ) : String :=
  let n := (⌊q⌋).toNat
  let frac := q - ((⌊q⌋ : ℤ) : ℚ)
  match ((List.range 17).map (· + 1)).find? (fun k => (frac * 10 ^ k).den = 1) with
  | some k => toString n ++ "." ++ zeroPad k (toString (frac * 10 ^ k).num.toNat)
  | none =>
    let c := (roundHalfEven (frac * 10 ^ 16)).toNat
    toString n ++ "." ++ trimZeros (zeroPad 16 (toString c))

def pyFloatStr (q : ℚ) : String :=
  if q < 0 then "-" ++ pyFloatStrNN (-q) else pyFloatStrNN q

/-- Python string interpolation of a shift's required-hours value. -/
def PyNum.str : PyNum → String
  | .int n => toString n
  | .float q => pyFloatStr q

def lateLoginReason (late_mins : ℤ) (expected actual : String) : String :=
  "Late login by " ++ toString late_mins ++ " minute(s). Expected: " ++ expected ++ ", Actual: " ++ actual

def earlyLogoutReason (early_mins : ℤ) (expected actual : String) : String :=
  "Early logout by " ++ toString early_mins ++ " minute(s). Expected: " ++ expected ++ ", Actual: " ++ actual

def insufficientHoursReason (total_hours : ℚ) (required : PyNum) : String :=
  "Insufficient hours: " ++ fmt2 total_hours ++ "h < " ++ required.str ++ "h required"

/-- The dictionary built by `calculate_attendance_status`. -/
structure StatusResult where
  status : String
  is_lop : Bool
  lop_reason : Option String
  total_hours_decimal : ℚ
deriving DecidableEq, Repr

/-- Embeds `calculate_attendance_status`:
the strict-LOP classifier.  Branch structure mirrors the source: a `None`
`login_time` selects the flexible branch; otherwise the fixed branch
applies the late-login, early-logout and insufficient-hours rules in that
order.  Comparisons against a `None` produced by a failed time parse
raise `TypeError`. -/
def calculate_attendance_status (check_in_24h check_out_24h : Option String)
    (shift_timings : ShiftTimings) : Py StatusResult :=
  if shift_timings.login_time = none then
    -- Flexible shift - only check total hours
    if pyTruthyS check_in_24h && pyTruthyS check_out_24h then
      match parse_time_24h_to_minutes check_in_24h, parse_time_24h_to_minutes check_out_24h with
      | some in_mins, some out_mins =>
        let total_mins := durationMinutes in_mins out_mins
        let total_hours : ℚ := (total_mins : ℚ) / 60
        match shift_timings.total_hours with
        | some required_hours =>
          if total_hours < required_hours.toQ then
            .ok ⟨AttendanceStatus.LOSS_OF_PAY, true,
                 some (insufficientHoursReason total_hours required_hours), total_hours⟩
          else .ok ⟨AttendanceStatus.PRESENT, false, none, total_hours⟩
        | none => .error .typeError
      | _, _ => .error .typeError
    else .ok ⟨AttendanceStatus.PRESENT, false, none, 0⟩
  else
    -- Fixed shift - strict rules apply
    let expected_login := parse_time_24h_to_minutes shift_timings.login_time
    let expected_logout := parse_time_24h_to_minutes shift_timings.logout_time
    if ¬ pyTruthyS check_in_24h then
      .ok ⟨AttendanceStatus.NOT_LOGGED, false, none, 0⟩
    else
      match parse_time_24h_to_minutes check_in_24h, expected_login with
      | some actual_login, some exp_login =>
        if exp_login < actual_login then
          -- Late login (STRICT - even 1 minute late = LOP)
          let late_mins := actual_login - exp_login
          let reason := lateLoginReason late_mins (shift_timings.login_time.getD "")
            (check_in_24h.getD "")
          if pyTruthyS check_out_24h then
            match parse_time_24h_to_minutes check_out_24h with
            | some actual_logout =>
              .ok ⟨AttendanceStatus.LOSS_OF_PAY, true, some reason,
                   ((durationMinutes actual_login actual_logout : ℤ) : ℚ) / 60⟩
            | none => .error .typeError
          else .ok ⟨AttendanceStatus.LOSS_OF_PAY, true, some reason, 0⟩
        else
          -- On-time login: early-logout / insufficient-hours checks
          if pyTruthyS check_out_24h then
            match parse_time_24h_to_minutes check_out_24h with
            | some actual_logout =>
              let total_hours : ℚ := ((durationMinutes actual_login actual_logout : ℤ) : ℚ) / 60
              match expected_logout with
              | some exp_logout =>
                if actual_logout < exp_logout then
                  .ok ⟨AttendanceStatus.LOSS_OF_PAY, true,
                       some (earlyLogoutReason (exp_logout - actual_logout)
                         (shift_timings.logout_time.getD "") (check_out_24h.getD "")),
                       total_hours⟩
                else
                  match shift_timings.total_hours with
                  | some required_hours =>
                    if total_hours < required_hours.toQ then
                      .ok ⟨AttendanceStatus.LOSS_OF_PAY, true,
                           some (insufficientHoursReason total_hours required_hours), total_hours⟩
                    else .ok ⟨AttendanceStatus.PRESENT, false, none, total_hours⟩
                  | none => .error .typeError
              | none => .error .typeError
            | none => .error .typeError
          else
            -- Only logged in, not logged out yet
            .ok ⟨AttendanceStatus.LOGIN, false, none, 0⟩
      | _, _ => .error .typeError

/-- Embeds `calculate_total_hours_str`: decimal hours to display string
(`int()` truncation equals `⌊·⌋` for the nonnegative values produced). -/
def calculate_total_hours_str (total_hours_decimal : ℚ) : String :=
  if total_hours_decimal = 0 then "-"
  else
    let hours := ⌊total_hours_decimal⌋
    let minutes := ⌊(total_hours_decimal - (hours : ℚ)) * 60⌋
    toString hours ++ "h " ++ toString minutes ++ "m"

/-- The attendance fields persisted by the `check_in` handler. -/
structure CheckInRecord where
  status : String
  is_lop : Bool
  lop_reason : Option String
  shift_type : String
  expected_login : Option String
  expected_logout : Option String
deriving DecidableEq, Repr

/-- The classification-and-record-construction core of the `check_in`
handler: resolve the shift, apply the late-login rule when the shift has
an expected login, and build the record to insert. -/
def check_in_compute (employee : Employee) (check_in_24h : String) : Py CheckInRecord := do
  let shift_timings ← get_shift_timings employee
  let expected_login := match shift_timings with
    | some t => t.login_time
    | none => none
  let expected_logout := match shift_timings with
    | some t => t.logout_time
    | none => none
  let base : CheckInRecord :=
    ⟨AttendanceStatus.LOGIN, false, none, employee.shift_type.getD "General",
     expected_login, expected_logout⟩
  if pyTruthyS expected_login then
    match parse_time_24h_to_minutes (some check_in_24h), parse_time_24h_to_minutes expected_login with
    | some actual_mins, some expected_mins =>
      if expected_mins < actual_mins then
        let late_mins := actual_mins - expected_mins
        pure { base with
          status := AttendanceStatus.LOSS_OF_PAY
          is_lop := true
          lop_reason := some (lateLoginReason late_mins (expected_login.getD "") check_in_24h) }
      else pure base
    | _, _ => .error .typeError
  else pure base

/-- The fields the `check_out` handler persists in its `$set` update. -/
structure CheckOutUpdate where
  status : String
  is_lop : Bool
  lop_reason : Option String
  total_hours : String
  total_hours_decimal : ℚ
deriving DecidableEq, Repr

/-- The finalization step of the `check_out` handler: the stored check-in
LOP flag is OR-ed with the freshly computed one, the stored reason wins
when truthy, and the final status is `Loss of Pay` exactly when the
combined flag is set. -/
def check_out_finalize (stored_is_lop : Option Bool) (stored_lop_reason : Option String)
    (status_result : StatusResult) : CheckOutUpdate :=
  let final_is_lop := pyTruthyB stored_is_lop || status_result.is_lop
  let final_lop_reason :=
    if pyTruthyS stored_lop_reason then stored_lop_reason else status_result.lop_reason
  let final_status :=
    if final_is_lop then AttendanceStatus.LOSS_OF_PAY else status_result.status
  ⟨final_status, final_is_lop, final_lop_reason,
   calculate_total_hours_str status_result.total_hours_decimal,
   status_result.total_hours_decimal⟩

/-- The no-shift-info fallback dictionary built by `check_out` when shift
resolution yields nothing (legacy records): status `Completed`, no LOP. -/
def check_out_fallback_result (check_in_24h check_out_24h : Option String) : Py StatusResult :=
  if pyTruthyS check_in_24h then
    match parse_time_24h_to_minutes check_in_24h, parse_time_24h_to_minutes check_out_24h with
    | some in_mins, some out_mins =>
      .ok ⟨AttendanceStatus.COMPLETED, false, none,
           ((durationMinutes in_mins out_mins : ℤ) : ℚ) / 60⟩
    | _, _ => .error .typeError
  else .ok ⟨AttendanceStatus.COMPLETED, false, none, 0⟩

/-! ## Calendar (proleptic Gregorian, as Python's `calendar`/`datetime`) -/

def isLeapYear (y : ℕ) : Bool :=
  y % 4 = 0 && (y % 100 ≠ 0 || y % 400 = 0)

/-- Embeds the day count of `calendar.monthrange`. -/
def daysInMonth (y m : ℕ) : ℕ :=
  if m = 2 then (if isLeapYear y then 29 else 28)
  else if m = 4 || m = 6 || m = 9 || m = 11 then 30
  else 31

def daysBeforeYear (y : ℕ) : ℕ :=
  let n := y - 1
  365 * n + n / 4 - n / 100 + n / 400

def daysBeforeMonth (y m : ℕ) : ℕ :=
  (List.range (m - 1)).foldl (fun acc i => acc + daysInMonth y (i + 1)) 0

/-- Proleptic-Gregorian ordinal of a date (0001-01-01 is ordinal 1). -/
def dayOrdinal (y m d : ℕ) : ℕ :=
  daysBeforeYear y + daysBeforeMonth y m + d

/-- Embeds `datetime.weekday`: Monday is 0, Sunday is 6. -/
def pyWeekday (y m d : ℕ) : ℕ :=
  (dayOrdinal y m d + 6) % 7

/-- Day-name abbreviations of `strftime`, indexed by `pyWeekday`. -/
def dayName (w : ℕ) : String :=
  ["Mon", "Tue", "Wed", "Thu", "Fri", "Sat", "Sun"].getD w ""

/-- The `DD-MM-YYYY` date key used by attendance records. -/
def dateStr (y m d : ℕ) : String :=
  pad2 d ++ "-" ++ pad2 m ++ "-" ++ toString y

/-! ## Payroll aggregator -/

/-- The attendance-document fields `calculate_payroll_for_employee`
reads. -/
structure AttDoc where
  date : String
  status : Option String
  is_lop : Option Bool
  check_in : Option String
  check_out : Option String
  total_hours : Option String
deriving DecidableEq, Repr

/-- A leave document as read by the payroll aggregator's query
(employee id, approval status, ISO `YYYY-MM-DD` start/end dates). -/
structure LeaveDoc where
  employee_id : String
  status : String
  start_date : String
  end_date : String
deriving DecidableEq, Repr

/-- Lexicographic order on code points, as the document store compares the
ISO date strings of leave records. -/
def strLeAux : List Char → List Char → Bool
  | [], _ => true
  | _ :: _, [] => false
  | a :: as, b :: bs =>
    if a.val < b.val then true
    else if b.val < a.val then false
    else strLeAux as bs

def strLe (a b : String) : Bool := strLeAux a.data b.data

/-- An approved leave covering a given ISO date — the overriding
day-classification the specification assigns to `LeaveRecord`s (the same
test the monthly attendance-view endpoint runs against `db.leaves`). -/
def leaveCovers (l : LeaveDoc) (isoDate : String) : Bool :=
  l.status = "approved" && strLe l.start_date isoDate && strLe isoDate l.end_date

/-- One entry of the day-by-day breakdown (`lop_value` is only set on days
with a matched attendance record, as in the source). -/
structure DayDetail where
  date : String
  day_name : String
  is_sunday : Bool
  status : String
  is_lop : Bool
  lop_value : Option ℚ
  check_in : Option String
  check_out : Option String
  total_hours : Option String
deriving DecidableEq, Repr

/-- The counters accumulated by the per-day loop. -/
structure DayAcc where
  present_days : ℕ
  lop_days : ℚ
  leave_days : ℕ
  absent_days : ℕ
  details : List DayDetail
deriving DecidableEq, Repr

/-- Embeds the `attendance_map` date lookup: the dictionary is built by insertion in list
order, so a later record with the same date key overwrites an earlier
one. -/
def attendanceMap (records : List AttDoc) (date : String) : Option AttDoc :=
  (records.filter (fun r => r.date = date)).getLast?

/-- The body of the per-day loop of `calculate_payroll_for_employee`:
Sunday first, then the matched-record sub-classification in source order,
then the no-record Absent fallback. -/
def payrollDayStep (year month : ℕ) (amap : String → Option AttDoc)
    (acc : DayAcc) (day : ℕ) : DayAcc :=
  let date_str := dateStr year month day
  let w := pyWeekday year month day
  let base : DayDetail :=
    ⟨date_str, dayName w, w = 6, "NA", false, none, none, none, none⟩
  if w = 6 then
    { acc with details := acc.details ++ [{ base with status := "Sunday" }] }
  else
    match amap date_str with
    | some record =>
      let status := record.status.getD "NA"
      let is_lop := pyTruthyB record.is_lop
      let detail : DayDetail :=
        { base with
          status := status, is_lop := is_lop, lop_value := some 0
          check_in := record.check_in, check_out := record.check_out
          total_hours := record.total_hours }
      -- Full day LOP: is_lop flag or Loss of Pay status
      if is_lop || status = "Loss of Pay" then
        { acc with lop_days := acc.lop_days + 1
                   details := acc.details ++ [{ detail with lop_value := some 1 }] }
      -- Half day LOP: Late Login only OR Early Out only (without is_lop flag)
      else if status = "Late Login" then
        { acc with lop_days := acc.lop_days + 1 / 2
                   details := acc.details ++
                     [{ detail with is_lop := true, lop_value := some (1 / 2) }] }
      else if status = "Early Out" then
        { acc with lop_days := acc.lop_days + 1 / 2
                   details := acc.details ++
                     [{ detail with is_lop := true, lop_value := some (1 / 2) }] }
      -- Present: no LOP
      else if status = "Present" || status = "Completed" then
        { acc with present_days := acc.present_days + 1
                   details := acc.details ++ [detail] }
      -- Leave
      else if status = "Leave" then
        { acc with leave_days := acc.leave_days + 1
                   details := acc.details ++ [detail] }
      -- Not logged / NA
      else if status = "Not Logged" || status = "NA" then
        { acc with absent_days := acc.absent_days + 1
                   details := acc.details ++ [detail] }
      else
        { acc with present_days := acc.present_days + 1
                   details := acc.details ++ [detail] }
    | none =>
      { acc with absent_days := acc.absent_days + 1
                 details := acc.details ++ [{ base with status := "Absent" }] }

/-- The numeric/report fields of the payroll result. -/
structure PayrollResult where
  monthly_salary : ℚ
  working_days : ℕ
  present_days : ℕ
  lop_days : ℚ
  leave_days : ℕ
  absent_days : ℕ
  per_day_salary : ℚ
  lop_deduction : ℚ
  net_salary : ℚ
  attendance_details : List DayDetail
deriving DecidableEq, Repr

/-- Embeds `calculate_payroll_for_employee` on an employee that was found, the
attendance records fetched for the month and the approved leave records
fetched for the month.  The leave records are bound but never consulted
by the per-day loop, exactly as in the source. -/
def calculate_payroll_for_employee (employee : Employee)
    (attendance_records : List AttDoc) (leave_records : List LeaveDoc)
    (year month : ℕ) : PayrollResult :=
  let days_in_month := daysInMonth year month
  let working_days :=
    ((List.range days_in_month).map (· + 1)).countP
      (fun day => pyWeekday year month day ≠ 6)
  let _unused_leaves := leave_records
  let amap := attendanceMap attendance_records
  let acc :=
    ((List.range days_in_month).map (· + 1)).foldl
      (payrollDayStep year month amap) ⟨0, 0, 0, 0, []⟩
  let monthly_salary := employee.monthly_salary.getD 0
  let per_day_salary : ℚ := if 0 < monthly_salary then monthly_salary / 30 else 0
  let lop_deduction := per_day_salary * (acc.lop_days + (acc.absent_days : ℚ))
  let net_salary := monthly_salary - lop_deduction
  { monthly_salary := monthly_salary
    working_days := working_days
    present_days := acc.present_days
    lop_days := acc.lop_days
    leave_days := acc.leave_days
    absent_days := acc.absent_days
    per_day_salary := round2 per_day_salary
    lop_deduction := round2 lop_deduction
    net_salary := round2 (max 0 net_salary)
    attendance_details := acc.details }

/-! ## Shift-update endpoint (`PUT /employees/{id}/shift`) -/

/-- Outcome of the shift-configuration part of `update_employee_shift`:
either an HTTP error response or the fields written to the employee
document. -/
inductive ShiftUpdateOutcome where
  | httpError (code : ℕ) (detail : String)
  | updated (custom_login_time custom_logout_time : Option String)
      (custom_total_hours : Option ℚ)
deriving DecidableEq, Repr

/-- The shift-configuration core of `update_employee_shift`: a `Custom`
shift with a missing time is rejected with a 400; with both times present
they are stored as given and the total hours derived — the source's
comparison `logout_mins < login_mins` raises `TypeError` when either
parse returned `None`. -/
def update_employee_shift_core (shift_type : String)
    (login_time logout_time : Option String) : Py ShiftUpdateOutcome :=
  if shift_type = "Custom" then
    if ¬ pyTruthyS login_time || ¬ pyTruthyS logout_time then
      .ok (.httpError 400 "Custom shift requires login_time and logout_time")
    else
      match parse_time_24h_to_minutes login_time, parse_time_24h_to_minutes logout_time with
      | some login_mins, some logout_mins =>
        let total_hours : ℚ :=
          if logout_mins < login_mins then ((24 * 60 - login_mins + logout_mins : ℤ) : ℚ) / 60
          else ((logout_mins - login_mins : ℤ) : ℚ) / 60
        .ok (.updated login_time logout_time (some total_hours))
      | _, _ => .error .typeError
  else
    .ok (.updated none none none)

/-! ## Check-in duplicate guard under interleaving

The `check_in` handler guards against duplicates with a separate
`find_one` read followed by an unconditional `insert_one`.  The two
phases are modelled as distinct atomic steps against the store, so
interleavings of two concurrent calls can be examined. -/

/-- The stored attendance fields the duplicate guard consults. -/
structure StoredAttendance where
  employee_id : String
  date : String
  check_in : Option String
deriving DecidableEq, Repr

/-- The attendance collection. -/
abbrev AttStore := List StoredAttendance

/-- Embeds the point lookup of an attendance record by employee and date. -/
def attFindOne (store : AttStore) (employee_id date : String) : Option StoredAttendance :=
  (store.filter (fun r => r.employee_id = employee_id && r.date = date)).head?

/-- Observable result of a check-in call: `conflict` is the 400
"Already checked in today" response. -/
inductive CheckInOutcome where
  | conflict
  | inserted
deriving DecidableEq, Repr

/-- Read phase of `check_in`: the `find_one` for today's record. -/
def check_in_read (store : AttStore) (employee_id date : String) : Option StoredAttendance :=
  attFindOne store employee_id date

/-- Commit phase of `check_in`: raise `Conflict` only if the record this
call *previously observed* already has a check-in; otherwise
`insert_one` a fresh record.  No conditional write — the insert does not
re-examine the store. -/
def check_in_commit (observed : Option StoredAttendance) (store : AttStore)
    (employee_id date check_in_time : String) : CheckInOutcome × AttStore :=
  match observed with
  | some existing =>
    if pyTruthyS existing.check_in then (.conflict, store)
    else (.inserted, store ++ [⟨employee_id, date, some check_in_time⟩])
  | none => (.inserted, store ++ [⟨employee_id, date, some check_in_time⟩])

/-! ## Concrete data used by the claim theorems -/

def c1_employee : Employee := ⟨some "General", none, none, some 30000⟩

def c1_leave : LeaveDoc := ⟨"EMP1", "approved", "2025-01-01", "2025-01-31"⟩

/-- January 2025 with attendance records on every non-Sunday day: status
`Late Login` (not full LOP) on the 2nd and 3rd, `Present` elsewhere. -/
def c3_records : List AttDoc :=
  ((List.range 31).map (· + 1)).filterMap (fun d =>
    if pyWeekday 2025 1 d = 6 then none
    else some ⟨dateStr 2025 1 d,
      some (if d = 2 ∨ d = 3 then "Late Login" else "Present"),
      some false, some "10:00 AM", some "09:00 PM", some "11h 0m"⟩)

def c3_employee : Employee := ⟨some "General", none, none, some 60000⟩

/-! ## Claim theorems -/

/-- The salary arithmetic of `calculate_payroll_for_employee`, expressed
over the returned day counts (shared helper: for a nonnegative monthly
salary the guarded `if monthly_salary > 0` branch coincides with the
plain `/ 30` formula). -/
theorem payroll_salary_fields (employee : Employee) (records : List AttDoc)
    (leaves : List LeaveDoc) (year month : ℕ)
    (h : 0 ≤ employee.monthly_salary.getD 0) :
    (calculate_payroll_for_employee employee records leaves year month).per_day_salary =
      round2 (employee.monthly_salary.getD 0 / 30) ∧
    (calculate_payroll_for_employee employee records leaves year month).lop_deduction =
      round2 ((employee.monthly_salary.getD 0 / 30) *
        ((calculate_payroll_for_employee employee records leaves year month).lop_days +
         ((calculate_payroll_for_employee employee records leaves year month).absent_days : ℚ))) ∧
    (calculate_payroll_for_employee employee records leaves year month).net_salary =
      round2 (max 0 (employee.monthly_salary.getD 0 -
        (employee.monthly_salary.getD 0 / 30) *
        ((calculate_payroll_for_employee employee records leaves year month).lop_days +
         ((calculate_payroll_for_employee employee records leaves year month).absent_days : ℚ)))) := by
  unfold calculate_payroll_for_employee
  by_cases hpos : 0 < employee.monthly_salary.getD 0
  · simp [hpos]
  · have h0 : employee.monthly_salary.getD 0 = 0 := le_antisymm (not_lt.mp hpos) h
    simp [h0]

/-- C1: the payroll aggregator is claimed to classify every non-Sunday day
covered by an approved `LeaveRecord` as a leave day rather than an absent
day.  The code fetches the month's approved leave records but never
consults them in the per-day loop: with an approved leave covering all of
January 2025 and no attendance records, Monday 2025-01-06 is classified
`Absent`, `leave_days` stays 0, all 27 non-Sunday days count as absent,
and the full LOP deduction `27 * 30000 / 30 = 27000` is charged. -/
theorem c1_approved_leave_ignored_by_payroll :
    leaveCovers c1_leave "2025-01-06" = true ∧
    (calculate_payroll_for_employee c1_employee [] [c1_leave] 2025 1).leave_days = 0 ∧
    ((calculate_payroll_for_employee c1_employee [] [c1_leave] 2025 1).attendance_details.filter
        (fun d => d.date = "06-01-2025")).map (fun d => d.status) = ["Absent"] ∧
    (calculate_payroll_for_employee c1_employee [] [c1_leave] 2025 1).absent_days = 27 ∧
    (calculate_payroll_for_employee c1_employee [] [c1_leave] 2025 1).lop_deduction = 27000 := by
  refine ⟨by decide, by decide, by decide, by decide, ?_⟩
  have h := (payroll_salary_fields c1_employee [] [c1_leave] 2025 1 (by decide)).2.1
  rw [h,
    show (calculate_payroll_for_employee c1_employee [] [c1_leave] 2025 1).lop_days = 0 from rfl,
    show (calculate_payroll_for_employee c1_employee [] [c1_leave] 2025 1).absent_days = 27
      from by decide]
  norm_num [round2, roundHalfEven, c1_employee]

/-- C9: time parsing itself is defensive (`"ab"` parses to `None` instead
of raising), but the operations that consume the parse result are not:
updating an employee's shift to `Custom` with an unparsable login time
reaches the comparison `logout_mins < login_mins` with a `None` operand
and raises an unhandled `TypeError` instead of returning a validation
failure, and resolving the shift of an employee whose stored custom login
time is malformed raises the same `TypeError`.  Only a *missing* custom
time is rejected with the 400 validation response. -/
theorem c9_malformed_time_crashes_shift_ops :
    parse_time_24h_to_minutes (some "ab") = none ∧
    update_employee_shift_core "Custom" (some "ab") (some "18:00") = .error .typeError ∧
    get_shift_timings ⟨some "Custom", some "ab", some "18:00", none⟩ = .error .typeError ∧
    update_employee_shift_core "Custom" (some "ab") none =
      .ok (.httpError 400 "Custom shift requires login_time and logout_time") := by
  decide

/-- C10: the duplicate-check-in guard is a separate `find_one` read
followed by an unconditional `insert_one`.  In the interleaving where both
concurrent calls read before either writes, both observe no existing
check-in, both insert, and the store ends with two records for the same
(employee, date) — neither call sees the Conflict.  Only when the second
read happens after the first commit does the Conflict surface. -/
theorem c10_read_then_write_check_in_races :
    (check_in_commit (check_in_read [] "EMP1" "12-10-2026") [] "EMP1" "12-10-2026" "10:00").1
        = .inserted ∧
    (check_in_commit (check_in_read [] "EMP1" "12-10-2026")
        (check_in_commit (check_in_read [] "EMP1" "12-10-2026") [] "EMP1" "12-10-2026" "10:00").2
        "EMP1" "12-10-2026" "10:01").1 = .inserted ∧
    (check_in_commit (check_in_read [] "EMP1" "12-10-2026")
        (check_in_commit (check_in_read [] "EMP1" "12-10-2026") [] "EMP1" "12-10-2026" "10:00").2
        "EMP1" "12-10-2026" "10:01").2.length = 2 ∧
    (check_in_commit
        (check_in_read
          (check_in_commit (check_in_read [] "EMP1" "12-10-2026") [] "EMP1" "12-10-2026" "10:00").2
          "EMP1" "12-10-2026")
        (check_in_commit (check_in_read [] "EMP1" "12-10-2026") [] "EMP1" "12-10-2026" "10:00").2
        "EMP1" "12-10-2026" "10:01").1 = .conflict := by
  decide

/-- C2: for every employee found (the salary-update API enforces a
nonnegative monthly salary) and every month, the reported
`per_day_salary` equals the monthly salary divided by the fixed constant
30, `lop_deduction` equals the per-day salary times
`lop_days + absent_days`, and `net_salary` equals
`max 0 (monthly_salary - lop_deduction)`, each reported after rounding to
2 decimal places. -/
theorem c2_salary_math (employee : Employee) (records : List AttDoc)
    (leaves : List LeaveDoc) (year month : ℕ)
    (h : 0 ≤ employee.monthly_salary.getD 0) :
    (calculate_payroll_for_employee employee records leaves year month).per_day_salary =
      round2 (employee.monthly_salary.getD 0 / 30) ∧
    (calculate_payroll_for_employee employee records leaves year month).lop_deduction =
      round2 ((employee.monthly_salary.getD 0 / 30) *
        ((calculate_payroll_for_employee employee records leaves year month).lop_days +
         ((calculate_payroll_for_employee employee records leaves year month).absent_days : ℚ))) ∧
    (calculate_payroll_for_employee employee records leaves year month).net_salary =
      round2 (max 0 (employee.monthly_salary.getD 0 -
        (employee.monthly_salary.getD 0 / 30) *
        ((calculate_payroll_for_employee employee records leaves year month).lop_days +
         ((calculate_payroll_for_employee employee records leaves year month).absent_days : ℚ)))) :=
  payroll_salary_fields employee records leaves year month h

/-- Witness for C2 at a concrete input: salary 60000, January 2025 with no
attendance records (27 absent days). -/
theorem c2_salary_math_witness :
    (calculate_payroll_for_employee ⟨some "General", none, none, some 60000⟩ [] [] 2025 1).per_day_salary =
      round2 ((60000 : ℚ) / 30) ∧
    (calculate_payroll_for_employee ⟨some "General", none, none, some 60000⟩ [] [] 2025 1).lop_deduction =
      round2 (((60000 : ℚ) / 30) *
        ((calculate_payroll_for_employee ⟨some "General", none, none, some 60000⟩ [] [] 2025 1).lop_days +
         ((calculate_payroll_for_employee ⟨some "General", none, none, some 60000⟩ [] [] 2025 1).absent_days : ℚ))) ∧
    (calculate_payroll_for_employee ⟨some "General", none, none, some 60000⟩ [] [] 2025 1).net_salary =
      round2 (max 0 ((60000 : ℚ) -
        ((60000 : ℚ) / 30) *
        ((calculate_payroll_for_employee ⟨some "General", none, none, some 60000⟩ [] [] 2025 1).lop_days +
         ((calculate_payroll_for_employee ⟨some "General", none, none, some 60000⟩ [] [] 2025 1).absent_days : ℚ)))) :=
  c2_salary_math ⟨some "General", none, none, some 60000⟩ [] [] 2025 1 (by decide)

/-- C3: in the payroll per-day loop, a non-Sunday day whose attendance
record has a falsy `is_lop` and status `Late Login` (or `Early Out`)
contributes exactly 0.5 to `lop_days`, while a truthy `is_lop` or status
`Loss of Pay` contributes exactly 1.0; and the concrete January-2025
month with exactly two `Late Login` days and every other non-Sunday day
`Present` yields `lop_days = 1.0` and no absent days. -/
theorem c3_half_day_lop_contribution (year month day : ℕ)
    (amap : String → Option AttDoc) (acc : DayAcc) (r : AttDoc)
    (hsun : pyWeekday year month day ≠ 6)
    (hrec : amap (dateStr year month day) = some r) :
    (pyTruthyB r.is_lop = false → r.status.getD "NA" = "Late Login" →
      (payrollDayStep year month amap acc day).lop_days = acc.lop_days + 1 / 2) ∧
    (pyTruthyB r.is_lop = false → r.status.getD "NA" = "Early Out" →
      (payrollDayStep year month amap acc day).lop_days = acc.lop_days + 1 / 2) ∧
    ((pyTruthyB r.is_lop = true ∨ r.status.getD "NA" = "Loss of Pay") →
      (payrollDayStep year month amap acc day).lop_days = acc.lop_days + 1) ∧
    (calculate_payroll_for_employee c3_employee c3_records [] 2025 1).lop_days = 1 ∧
    (calculate_payroll_for_employee c3_employee c3_records [] 2025 1).absent_days = 0 := by
  refine ⟨?_, ?_, ?_, by with_unfolding_all decide, by decide⟩
  · intro h1 h2
    simp [payrollDayStep, hsun, hrec, h1, h2]
  · intro h1 h2
    simp [payrollDayStep, hsun, hrec, h1, h2]
  · rintro (h1 | h2)
    · simp [payrollDayStep, hsun, hrec, h1]
    · rcases h : pyTruthyB r.is_lop with _ | _ <;>
        simp [payrollDayStep, hsun, hrec, h, h2]

/-- Witness for C3 at a concrete input: the `Late Login` record of
2025-01-02 adds exactly one half day on top of an empty accumulator. -/
theorem c3_half_day_lop_contribution_witness :
    (payrollDayStep 2025 1 (attendanceMap c3_records) ⟨0, 0, 0, 0, []⟩ 2).lop_days = 0 + 1 / 2 := by
  have h := c3_half_day_lop_contribution 2025 1 2 (attendanceMap c3_records) ⟨0, 0, 0, 0, []⟩
    ⟨"02-01-2025", some "Late Login", some false, some "10:00 AM", some "09:00 PM", some "11h 0m"⟩
    (by decide) (by decide)
  exact h.1 (by decide) (by decide)

/-- Bind of a successful embedded computation (shared helper). -/
theorem ok_bind {ε α β : Type} (a : α) (f : α → Except ε β) :
    (Except.ok a : Except ε α) >>= f = f a := rfl

/-- C4: at check-in on a fixed shift (truthy expected login) with no
check-out yet, a check-in minute strictly after the expected login minute
makes the record to be persisted carry status `Loss of Pay`, `is_lop`
true and the "Late login by N minute(s)..." reason with N the minute
difference; a check-in at or before the expected minute leaves status
`Login` with `is_lop` false. -/
theorem c4_check_in_late_login (employee : Employee) (t : ShiftTimings)
    (lt ci : String) (em am : ℤ)
    (ht : get_shift_timings employee = .ok (some t))
    (hlt : t.login_time = some lt) (hne : lt ≠ "")
    (hem : parse_time_24h_to_minutes (some lt) = some em)
    (ham : parse_time_24h_to_minutes (some ci) = some am) :
    (em < am → check_in_compute employee ci = .ok
      ⟨AttendanceStatus.LOSS_OF_PAY, true, some (lateLoginReason (am - em) lt ci),
       employee.shift_type.getD "General", some lt, t.logout_time⟩) ∧
    (am ≤ em → check_in_compute employee ci = .ok
      ⟨AttendanceStatus.LOGIN, false, none,
       employee.shift_type.getD "General", some lt, t.logout_time⟩) := by
  constructor
  · intro hcmp
    simp [check_in_compute, ht, ok_bind, hlt, pyTruthyS, hne, hem, ham, hcmp, pure, Except.pure]
  · intro hcmp
    simp [check_in_compute, ht, ok_bind, hlt, pyTruthyS, hne, hem, ham, not_lt.mpr hcmp, pure, Except.pure]

/-- Witness for C4: shift General (expected login 10:00); check-in at
10:01 is persisted as immediate Loss of Pay with a "1 minute(s)" reason,
check-in at exactly 10:00 stays `Login`. -/
theorem c4_check_in_late_login_witness :
    check_in_compute ⟨some "General", none, none, none⟩ "10:01" = .ok
      ⟨"Loss of Pay", true,
       some "Late login by 1 minute(s). Expected: 10:00, Actual: 10:01",
       "General", some "10:00", some "21:00"⟩ ∧
    check_in_compute ⟨some "General", none, none, none⟩ "10:00" = .ok
      ⟨"Login", false, none, "General", some "10:00", some "21:00"⟩ := by
  constructor
  · have h := c4_check_in_late_login ⟨some "General", none, none, none⟩
      ⟨some "10:00", some "21:00", some (.int 11)⟩ "10:00" "10:01" 600 601
      (by decide) (by decide) (by decide) (by decide) (by decide)
    exact h.1 (by decide)
  · have h := c4_check_in_late_login ⟨some "General", none, none, none⟩
      ⟨some "10:00", some "21:00", some (.int 11)⟩ "10:00" "10:00" 600 600
      (by decide) (by decide) (by decide) (by decide) (by decide)
    exact h.2 (by decide)

/-- C7: on a flexible shift (no expected login time) with both punches
present, classification depends only on total worked minutes versus the
required hours: strictly fewer worked hours yield `Loss of Pay` with the
"Insufficient hours: Xh < Yh required" reason, otherwise `Present`. -/
theorem c7_flexible_shift_classification (st : ShiftTimings) (ci co : String)
    (i o : ℤ) (req : PyNum)
    (hlogin : st.login_time = none) (hreq : st.total_hours = some req)
    (hci : ci ≠ "") (hco : co ≠ "")
    (hpi : parse_time_24h_to_minutes (some ci) = some i)
    (hpo : parse_time_24h_to_minutes (some co) = some o) :
    ((durationMinutes i o : ℚ) / 60 < req.toQ →
      calculate_attendance_status (some ci) (some co) st =
        .ok ⟨AttendanceStatus.LOSS_OF_PAY, true,
             some (insufficientHoursReason ((durationMinutes i o : ℚ) / 60) req),
             (durationMinutes i o : ℚ) / 60⟩) ∧
    (req.toQ ≤ (durationMinutes i o : ℚ) / 60 →
      calculate_attendance_status (some ci) (some co) st =
        .ok ⟨AttendanceStatus.PRESENT, false, none, (durationMinutes i o : ℚ) / 60⟩) := by
  constructor
  · intro hcmp
    simp [calculate_attendance_status, hlogin, hreq, pyTruthyS, hci, hco, hpi, hpo, hcmp]
  · intro hcmp
    simp [calculate_attendance_status, hlogin, hreq, pyTruthyS, hci, hco, hpi, hpo,
      not_lt.mpr hcmp]

/-- Witness for C7: Flexible shift (8h required), check-in 09:00 and
check-out 16:30 give 7.5 worked hours and the quoted reason string. -/
theorem c7_flexible_shift_classification_witness :
    calculate_attendance_status (some "09:00") (some "16:30") ⟨none, none, some (.int 8)⟩ =
      .ok ⟨"Loss of Pay", true, some "Insufficient hours: 7.50h < 8h required", 15 / 2⟩ := by
  have h := c7_flexible_shift_classification ⟨none, none, some (.int 8)⟩ "09:00" "16:30"
    540 990 (.int 8) rfl rfl (by decide) (by decide) (by decide) (by decide)
  rw [h.1 (by with_unfolding_all decide)]
  with_unfolding_all decide

/-- C5: on a fixed shift with an on-time check-in, an actual check-out
minute strictly before the expected logout minute yields `Loss of Pay`
with the "Early logout by N minute(s)..." reason — with no hypothesis on
worked hours, so also when they meet the requirement; otherwise fewer
worked hours than required yield `Loss of Pay` with the insufficient-hours
reason, and meeting both conditions yields `Present`. -/
theorem c5_fixed_shift_checkout (st : ShiftTimings) (lt gt ci co : String)
    (el xl a o : ℤ) (req : PyNum)
    (hlt : st.login_time = some lt)
    (hgt : st.logout_time = some gt)
    (hreq : st.total_hours = some req)
    (hpel : parse_time_24h_to_minutes (some lt) = some el)
    (hpxl : parse_time_24h_to_minutes (some gt) = some xl)
    (hci : ci ≠ "") (hco : co ≠ "")
    (hpa : parse_time_24h_to_minutes (some ci) = some a)
    (hpo : parse_time_24h_to_minutes (some co) = some o)
    (hontime : a ≤ el) :
    (o < xl →
      calculate_attendance_status (some ci) (some co) st =
        .ok ⟨AttendanceStatus.LOSS_OF_PAY, true,
             some (earlyLogoutReason (xl - o) gt co), (durationMinutes a o : ℚ) / 60⟩) ∧
    (xl ≤ o → (durationMinutes a o : ℚ) / 60 < req.toQ →
      calculate_attendance_status (some ci) (some co) st =
        .ok ⟨AttendanceStatus.LOSS_OF_PAY, true,
             some (insufficientHoursReason ((durationMinutes a o : ℚ) / 60) req),
             (durationMinutes a o : ℚ) / 60⟩) ∧
    (xl ≤ o → req.toQ ≤ (durationMinutes a o : ℚ) / 60 →
      calculate_attendance_status (some ci) (some co) st =
        .ok ⟨AttendanceStatus.PRESENT, false, none, (durationMinutes a o : ℚ) / 60⟩) := by
  refine ⟨?_, ?_, ?_⟩
  · intro hearly
    simp [calculate_attendance_status, hlt, hgt, hreq, pyTruthyS, hci, hco, hpa, hpo,
      hpel, hpxl, not_lt.mpr hontime, hearly]
  · intro hlate hshort
    simp [calculate_attendance_status, hlt, hgt, hreq, pyTruthyS, hci, hco, hpa, hpo,
      hpel, hpxl, not_lt.mpr hontime, not_lt.mpr hlate, hshort]
  · intro hlate hlong
    simp [calculate_attendance_status, hlt, hgt, hreq, pyTruthyS, hci, hco, hpa, hpo,
      hpel, hpxl, not_lt.mpr hontime, not_lt.mpr hlate, not_lt.mpr hlong]

/-- Witness for C5: shift General (logout 21:00, 11h required), on-time
check-in at 06:00 and check-out at 20:59 — one minute early — is Loss of
Pay although 899 worked minutes exceed the 11 required hours. -/
theorem c5_fixed_shift_checkout_witness :
    calculate_attendance_status (some "06:00") (some "20:59")
        ⟨some "10:00", some "21:00", some (.int 11)⟩ =
      .ok ⟨"Loss of Pay", true,
           some "Early logout by 1 minute(s). Expected: 21:00, Actual: 20:59", 899 / 60⟩ ∧
    (11 : ℚ) ≤ 899 / 60 := by
  constructor
  · have h := c5_fixed_shift_checkout ⟨some "10:00", some "21:00", some (.int 11)⟩
      "10:00" "21:00" "06:00" "20:59" 600 1260 360 1259 (.int 11)
      rfl rfl rfl (by decide) (by decide) (by decide) (by decide) (by decide) (by decide)
      (by decide)
    rw [h.1 (by decide)]
    with_unfolding_all decide
  · with_unfolding_all decide

/-- Every branch of `calculate_attendance_status` sets the status to
`Loss of Pay` exactly when it sets the `is_lop` flag (shared helper). -/
theorem status_result_lop_iff (ci co : Option String) (st : ShiftTimings)
    (sr : StatusResult)
    (h : calculate_attendance_status ci co st = .ok sr) :
    sr.status = AttendanceStatus.LOSS_OF_PAY ↔ sr.is_lop = true := by
  unfold calculate_attendance_status at h
  repeat' first
    | split at h
    | simp only [] at h
  all_goals first
    | exact Except.noConfusion h
    | (injection h with h; subst h;
       simp [AttendanceStatus.LOSS_OF_PAY, AttendanceStatus.PRESENT,
             AttendanceStatus.NOT_LOGGED, AttendanceStatus.LOGIN,
             AttendanceStatus.COMPLETED])

/-- The no-shift-info fallback of `check_out` never sets LOP (shared
helper). -/
theorem fallback_lop_iff (ci co : Option String) (sr : StatusResult)
    (h : check_out_fallback_result ci co = .ok sr) :
    sr.status = AttendanceStatus.LOSS_OF_PAY ↔ sr.is_lop = true := by
  unfold check_out_fallback_result at h
  repeat' first
    | split at h
    | simp only [] at h
  all_goals first
    | exact Except.noConfusion h
    | (injection h with h; subst h;
       simp [AttendanceStatus.LOSS_OF_PAY, AttendanceStatus.PRESENT,
             AttendanceStatus.NOT_LOGGED, AttendanceStatus.LOGIN,
             AttendanceStatus.COMPLETED])

/-- C6: at check-out, the persisted `is_lop` is the disjunction of the
flag stored at check-in and the flag computed at check-out (a flag set by
a late check-in is never cleared), the persisted status is `Loss of Pay`
exactly when that disjunction holds, and the persisted `lop_reason` is
the check-in reason when one exists, else the check-out reason. -/
theorem c6_checkout_lop_monotonic (stored_is_lop : Option Bool)
    (stored_reason : Option String) (ci co : Option String) (st : ShiftTimings)
    (sr : StatusResult)
    (h : calculate_attendance_status ci co st = .ok sr ∨
         check_out_fallback_result ci co = .ok sr) :
    (check_out_finalize stored_is_lop stored_reason sr).is_lop
        = (pyTruthyB stored_is_lop || sr.is_lop) ∧
    (pyTruthyB stored_is_lop = true →
      (check_out_finalize stored_is_lop stored_reason sr).is_lop = true) ∧
    ((check_out_finalize stored_is_lop stored_reason sr).status
        = AttendanceStatus.LOSS_OF_PAY ↔
      (check_out_finalize stored_is_lop stored_reason sr).is_lop = true) ∧
    (pyTruthyS stored_reason = true →
      (check_out_finalize stored_is_lop stored_reason sr).lop_reason = stored_reason) ∧
    (pyTruthyS stored_reason = false →
      (check_out_finalize stored_is_lop stored_reason sr).lop_reason = sr.lop_reason) := by
  have hiff : sr.status = AttendanceStatus.LOSS_OF_PAY ↔ sr.is_lop = true := by
    rcases h with h | h
    · exact status_result_lop_iff ci co st sr h
    · exact fallback_lop_iff ci co sr h
  refine ⟨rfl, ?_, ?_, ?_, ?_⟩
  · intro hs
    simp [check_out_finalize, hs]
  · rcases hb : (pyTruthyB stored_is_lop || sr.is_lop) with _ | _
    · have hsr : sr.is_lop = false := (Bool.or_eq_false_iff.mp hb).2
      have : ¬ sr.status = AttendanceStatus.LOSS_OF_PAY := by
        simp [hiff, hsr]
      simp [check_out_finalize, hb, this]
    · simp [check_out_finalize, hb]
  · intro hr
    simp [check_out_finalize, hr]
  · intro hr
    simp [check_out_finalize, hr]

/-- Witness for C6: a stored late-check-in LOP flag survives a check-out
whose own classification (legacy `Completed` fallback) found no LOP, and
the stored reason is kept. -/
theorem c6_checkout_lop_monotonic_witness :
    (check_out_finalize (some true)
        (some "Late login by 1 minute(s). Expected: 10:00, Actual: 10:01")
        ⟨"Completed", false, none, 0⟩).is_lop = true ∧
    ((check_out_finalize (some true)
        (some "Late login by 1 minute(s). Expected: 10:00, Actual: 10:01")
        ⟨"Completed", false, none, 0⟩).status = AttendanceStatus.LOSS_OF_PAY ↔
     (check_out_finalize (some true)
        (some "Late login by 1 minute(s). Expected: 10:00, Actual: 10:01")
        ⟨"Completed", false, none, 0⟩).is_lop = true) ∧
    (check_out_finalize (some true)
        (some "Late login by 1 minute(s). Expected: 10:00, Actual: 10:01")
        ⟨"Completed", false, none, 0⟩).lop_reason =
      some "Late login by 1 minute(s). Expected: 10:00, Actual: 10:01" := by
  have h := c6_checkout_lop_monotonic (some true)
    (some "Late login by 1 minute(s). Expected: 10:00, Actual: 10:01")
    none (some "18:00") ⟨none, none, none⟩ ⟨"Completed", false, none, 0⟩
    (Or.inr (by decide))
  exact ⟨h.2.1 (by decide), h.2.2.1, h.2.2.2.1 (by decide)⟩

/-- C8: the wraparound duration rule — `(1440 - start) + end` when
`end < start`, else `end - start` — is the rule the code applies both to
a custom shift's programmed total hours in `get_shift_timings` and to the
worked hours computed at check-out by `calculate_attendance_status`. -/
theorem c8_duration_wraparound (s e : ℤ) (employee : Employee)
    (lt gt : String) (li lo : ℤ) (ci co : String) (i o : ℤ)
    (st : ShiftTimings) (req : PyNum)
    (hshift : employee.shift_type = some "Custom")
    (hclt : employee.custom_login_time = some lt)
    (hcgt : employee.custom_logout_time = some gt)
    (hlt : lt ≠ "") (hgt : gt ≠ "")
    (hpl : parse_time_24h_to_minutes (some lt) = some li)
    (hpg : parse_time_24h_to_minutes (some gt) = some lo)
    (hflex : st.login_time = none) (hreq : st.total_hours = some req)
    (hci : ci ≠ "") (hco : co ≠ "")
    (hpi : parse_time_24h_to_minutes (some ci) = some i)
    (hpo : parse_time_24h_to_minutes (some co) = some o) :
    durationMinutes s e = (if e < s then (24 * 60 - s) + e else e - s) ∧
    get_shift_timings employee =
      .ok (some ⟨some lt, some gt, some (.float ((durationMinutes li lo : ℚ) / 60))⟩) ∧
    (calculate_attendance_status (some ci) (some co) st).map
        (fun r => r.total_hours_decimal) = .ok ((durationMinutes i o : ℚ) / 60) := by
  refine ⟨?_, ?_, ?_⟩
  · unfold durationMinutes
    split <;> ring
  · have hq : ((durationMinutes li lo : ℚ)) / 60 =
        (if lo < li then ((24 * 60 - li + lo : ℤ) : ℚ) / 60 else ((lo - li : ℤ) : ℚ) / 60) := by
      unfold durationMinutes
      split <;> push_cast <;> ring
    simp [get_shift_timings, hshift, hclt, hcgt, pyTruthyS, hlt, hgt, hpl, hpg, hq]
  · by_cases hcmp : (durationMinutes i o : ℚ) / 60 < req.toQ
    · simp [calculate_attendance_status, hflex, hreq, pyTruthyS, hci, hco, hpi, hpo,
        hcmp, Except.map]
    · simp [calculate_attendance_status, hflex, hreq, pyTruthyS, hci, hco, hpi, hpo,
        hcmp, Except.map]

/-- Witness for C8: a custom shift from 22:00 to 06:00 spans 480 minutes,
i.e. 8 programmed hours, and a flexible-shift day from 09:00 to 17:00
yields 8 worked hours at check-out. -/
theorem c8_duration_wraparound_witness :
    durationMinutes 1320 360 = 480 ∧
    get_shift_timings ⟨some "Custom", some "22:00", some "06:00", none⟩ =
      .ok (some ⟨some "22:00", some "06:00", some (.float 8)⟩) ∧
    (calculate_attendance_status (some "09:00") (some "17:00")
        ⟨none, none, some (.int 8)⟩).map (fun r => r.total_hours_decimal) = .ok 8 := by
  have h := c8_duration_wraparound 1320 360 ⟨some "Custom", some "22:00", some "06:00", none⟩
    "22:00" "06:00" 1320 360 "09:00" "17:00" 540 1020 ⟨none, none, some (.int 8)⟩ (.int 8)
    rfl rfl rfl (by decide) (by decide) (by decide) (by decide) rfl rfl
    (by decide) (by decide) (by decide) (by decide)
  refine ⟨by decide, ?_, ?_⟩
  · rw [h.2.1]
    with_unfolding_all decide
  · rw [h.2.2]
    with_unfolding_all decide

end HRMS
